import Mathlib

/-!
Shallow embedding of the inference-orchestration core of the
aggri-assist backend: label parsing, severity mapping, treatment
advice, narrative building, the diagnose orchestrator and the
speech-to-text fallback cascade, together with theorems checking the
specification claims against these definitions.

JavaScript strings are modelled as Lean `String`s, with the handful of
string operations the code uses (split, replace, trim, toLowerCase,
includes) defined explicitly on `List Char`.  JavaScript numbers are
modelled as rationals.
-/

namespace AggriAssist

/-- Whitespace characters removed by the JavaScript `trim` method
(restricted to the ASCII whitespace the code can meet). -/
def jsSpace (c : Char) : Bool :=
  c = ' ' || c = '\t' || c = '\n' || c = '\r' || c = '\x0b' || c = '\x0c'

/-- JavaScript `String.prototype.trim` on a character list. -/
def trimL (l : List Char) : List Char :=
  (((l.dropWhile jsSpace).reverse).dropWhile jsSpace).reverse

/-- `replace(/_/g, ' ')`: every underscore becomes a space. -/
def replaceU (l : List Char) : List Char :=
  l.map (fun c => if c = '_' then ' ' else c)

/-- ASCII lower-casing of one character, as `toLowerCase` acts on the
ASCII range. -/
def lowerChar (c : Char) : Char :=
  if 'A' ≤ c ∧ c ≤ 'Z' then Char.ofNat (c.toNat + 32) else c

/-- ASCII `toLowerCase` on a character list. -/
def toLowerL (l : List Char) : List Char := l.map lowerChar

/-- Does the second list start with the first? -/
def startsWithL : List Char → List Char → Bool
  | [], _ => true
  | _ :: _, [] => false
  | a :: as, b :: bs => a == b && startsWithL as bs

/-- JavaScript `includes`: the needle occurs somewhere in the
haystack. -/
def containsSub (needle : List Char) : List Char → Bool
  | [] => startsWithL needle []
  | c :: rest => startsWithL needle (c :: rest) || containsSub needle rest

/-- How many positions of the haystack start an occurrence of the
needle. -/
def countSub (needle : List Char) : List Char → Nat
  | [] => 0
  | c :: rest => (if startsWithL needle (c :: rest) then 1 else 0) + countSub needle rest

/-- `haystack.includes(needle)` on Lean strings. -/
def includesS (s pat : String) : Bool := containsSub pat.data s.data

/-- `toLowerCase` on Lean strings. -/
def toLowerS (s : String) : String := ⟨toLowerL s.data⟩

/-- `trim` on Lean strings. -/
def trimS (s : String) : String := ⟨trimL s.data⟩

/-- The triple-underscore separator used by the dataset labels. -/
def sepU : List Char := ['_', '_', '_']

/-- JavaScript `split('___')`, scanning left to right and consuming
non-overlapping occurrences; `acc` is the current segment reversed. -/
def split3U (acc : List Char) : List Char → List (List Char)
  | '_' :: '_' :: '_' :: rest => acc.reverse :: split3U [] rest
  | c :: rest => split3U (c :: acc) rest
  | [] => [acc.reverse]

/-- A parsed classifier label: the plant and the condition. -/
structure ParsedLabel where
  plant : String
  condition : String
  deriving DecidableEq, Repr

/-- `parseLabel` from `src/services/huggingface.service.ts`: split on
the triple underscore first; with two or more segments, part 0 is the
plant and the space-joined remainder the condition, each with single
underscores replaced by spaces and trimmed; otherwise the whole label,
underscore-normalised and trimmed, is the plant and the condition is
the sentinel. -/
def parseLabel (raw : String) : ParsedLabel :=
  match split3U [] raw.data with
  | p0 :: p1 :: rest =>
    { plant := ⟨trimL (replaceU p0)⟩
      condition := ⟨trimL (replaceU (List.intercalate [' '] (p1 :: rest)))⟩ }
  | _ => { plant := ⟨trimL (replaceU raw.data)⟩, condition := "unknown condition" }

/-- The severity taxonomy. -/
inductive Severity where
  | healthy
  | mild
  | moderate
  | severe
  deriving DecidableEq, Repr

/-- Does the condition text contain the healthy marker,
case-insensitively? -/
def hasHealthy (condition : String) : Bool :=
  containsSub "healthy".data (toLowerL condition.data)

/-- `mapSeverity` from the service: healthy marker wins outright,
otherwise fixed confidence thresholds. -/
def mapSeverity (condition : String) (confidence : ℚ) : Severity :=
  if hasHealthy condition then .healthy
  else if confidence < 0.4 then .mild
  else if confidence < 0.7 then .moderate
  else .severe

/-- One raw classifier prediction, as returned by the remote model. -/
structure ClassificationResult where
  label : String
  score : ℚ
  deriving DecidableEq, Repr

/-- The structured result of classifying one image. -/
structure PlantDiagnosisResult where
  rawResults : List ClassificationResult
  topPrediction : String
  confidence : ℚ
  isHealthy : Bool
  diseaseName : Option String
  plantName : Option String
  severity : Severity
  humanReadable : String
  deriving DecidableEq, Repr

/-- JavaScript `(q * 100).toFixed(1)`, the one-decimal percentage the
code prints everywhere: round q * 1000 to the nearest integer (half
away from zero) and print it with the last digit after the point.
Computed on the normalised numerator and denominator, where for
q ≥ 0 the rounded value is ⌊(2000·num + den) / (2·den)⌋. -/
def pct1 (q : ℚ) : String :=
  let n : Int :=
    if 0 ≤ q.num then (2000 * q.num + (q.den : Int)).fdiv (2 * (q.den : Int))
    else -((2000 * (-q.num) + (q.den : Int)).fdiv (2 * (q.den : Int)))
  let sign := if n < 0 then "-" else ""
  sign ++ toString (n.natAbs / 10) ++ "." ++ toString (n.natAbs % 10)

/-- How JavaScript template literals render a nullable string: `null`
becomes the literal text "null". -/
def jsShow (s : Option String) : String :=
  match s with
  | none => "null"
  | some t => t

/-- Insert an element into a score-descending list, after every
element of greater or equal score, so earlier-inserted ties stay
first. -/
def insertDesc (x : ClassificationResult) : List ClassificationResult → List ClassificationResult
  | [] => [x]
  | y :: ys => if y.score < x.score then x :: y :: ys else y :: insertDesc x ys

/-- The stable sort performed by `[...results].sort((a, b) => b.score - a.score)`:
descending by score, ties kept in input order (ECMAScript sort is
stable, so its result is this unique stable descending ordering). -/
def jsSortDescScore (results : List ClassificationResult) : List ClassificationResult :=
  results.foldl (fun acc r => insertDesc r acc) []

/-- The pure core of `classifyPlantDisease`, taking the decoded JSON
array from the remote call: reject an empty result set, sort by
descending score, parse the top label, and assemble the
`PlantDiagnosisResult`. -/
def classifyCore (results : List ClassificationResult) : Except String PlantDiagnosisResult :=
  if results.length = 0 then
    .error "HuggingFace returned empty classification results"
  else
    match jsSortDescScore results with
    | [] => .error "HuggingFace returned empty classification results"
    | top :: _ =>
      let pl := parseLabel top.label
      let isHealthy := containsSub "healthy".data (toLowerL pl.condition.data)
      let severity := mapSeverity pl.condition top.score
      let humanReadable :=
        if isHealthy then
          "The " ++ pl.plant ++ " plant appears healthy (" ++ pct1 top.score
            ++ "% confidence)."
        else
          "Detected " ++ pl.condition ++ " on " ++ pl.plant ++ " with "
            ++ pct1 top.score ++ "% confidence."
      .ok
        { rawResults := (jsSortDescScore results).map (fun r => { label := r.label, score := r.score })
          topPrediction := top.label
          confidence := top.score
          isHealthy := isHealthy
          diseaseName := if isHealthy then none else some pl.condition
          plantName := some pl.plant
          severity := severity
          humanReadable := humanReadable }

/-- Action list of the blight rule. -/
def blightActions : List String :=
  [ "Remove and destroy affected plant parts immediately.",
    "Apply copper-based fungicide (e.g., Bordeaux mixture) every 7–10 days.",
    "Improve air circulation between plants by pruning.",
    "Avoid overhead watering — use drip irrigation if possible.",
    "Rotate crops next season to break the disease cycle." ]

/-- Action list of the rust rule. -/
def rustActions : List String :=
  [ "Apply sulfur-based or triazole fungicide at first sign.",
    "Remove heavily infected leaves and dispose away from the field.",
    "Avoid wetting foliage; water at the base.",
    "Plant rust-resistant varieties in future seasons." ]

/-- Action list of the mildew rule. -/
def mildewActions : List String :=
  [ "Apply potassium bicarbonate or neem oil spray weekly.",
    "Improve airflow by thinning out dense foliage.",
    "Avoid high-nitrogen fertilisers which promote susceptible growth.",
    "Water in the morning so foliage dries quickly." ]

/-- Action list of the bacterial rule. -/
def bacterialActions : List String :=
  [ "Apply copper-based bactericide (copper hydroxide or copper oxychloride).",
    "Remove and destroy heavily infected leaves immediately.",
    "Avoid working with plants when foliage is wet to prevent spread.",
    "Ensure good air circulation — avoid dense planting.",
    "Use disease-free certified seeds for next season.",
    "Avoid overhead irrigation; use drip irrigation instead." ]

/-- Action list of the leaf-spot rule. -/
def leafSpotActions : List String :=
  [ "Apply chlorothalonil or mancozeb fungicide every 7 days.",
    "Remove infected leaves and avoid overhead irrigation.",
    "Ensure adequate plant spacing for air circulation.",
    "Mulch around the base to prevent soil splash onto leaves." ]

/-- Action list of the viral rule. -/
def viralActions : List String :=
  [ "No chemical cure — remove and destroy infected plants immediately.",
    "Control aphid and whitefly vectors with insecticidal soap.",
    "Use reflective mulches to deter virus-transmitting insects.",
    "Sanitise tools between plants to prevent mechanical spread." ]

/-- Action list of the scab rule. -/
def scabActions : List String :=
  [ "Apply captan or dodine fungicide preventively.",
    "Prune to open the canopy for better air circulation.",
    "Rake up and destroy fallen leaves which harbour spores.",
    "Choose scab-resistant cultivars for future planting." ]

/-- Action list of the rot rule. -/
def rotActions : List String :=
  [ "Improve soil drainage to reduce excess moisture.",
    "Apply appropriate fungicide (e.g., metalaxyl for root rot).",
    "Remove and destroy severely affected plants.",
    "Avoid over-irrigation and ensure proper spacing." ]

/-- Action list of the anthracnose rule. -/
def anthracnoseActions : List String :=
  [ "Apply mancozeb or azoxystrobin fungicide.",
    "Remove infected fruit and plant debris promptly.",
    "Avoid wetting foliage; water at the base early in the morning.",
    "Ensure proper plant spacing for good air circulation." ]

/-- The generic fallback action list. -/
def genericActions : List String :=
  [ "Isolate affected plants to prevent spread.",
    "Consult your local agricultural extension office with a sample.",
    "Consider a broad-spectrum fungicide as a precaution.",
    "Monitor remaining plants closely for spread of symptoms.",
    "Document symptoms and progression for agronomist review." ]

/-- `getTreatmentAdvice` from the service: lower-case the condition
text and walk the ordered chain of substring checks; the first match
returns its list, otherwise the generic fallback. -/
def getTreatmentAdvice (disease : String) (plant : String) : List String :=
  let d := toLowerS disease
  let _p := plant
  if includesS d "blight" then blightActions
  else if includesS d "rust" then rustActions
  else if includesS d "mildew" then mildewActions
  else if includesS d "bacterial spot" || includesS d "bacterial" then bacterialActions
  else if includesS d "leaf spot" || includesS d "cercospora" || includesS d "septoria" then leafSpotActions
  else if includesS d "mosaic" || includesS d "virus" || includesS d "curl" then viralActions
  else if includesS d "scab" then scabActions
  else if includesS d "rot" then rotActions
  else if includesS d "anthracnose" then anthracnoseActions
  else genericActions

/-- The treatment rule chain written as an ordered data table: each
rule is the list of substring patterns of one branch together with the
action list of that branch, in source order. -/
def treatmentRules : List (List String × List String) :=
  [ (["blight"], blightActions),
    (["rust"], rustActions),
    (["mildew"], mildewActions),
    (["bacterial spot", "bacterial"], bacterialActions),
    (["leaf spot", "cercospora", "septoria"], leafSpotActions),
    (["mosaic", "virus", "curl"], viralActions),
    (["scab"], scabActions),
    (["rot"], rotActions),
    (["anthracnose"], anthracnoseActions) ]

/-- Does a rule of the table match the (already lower-cased) condition
text? -/
def matchesRule (d : String) (r : List String × List String) : Bool :=
  r.1.any (fun pat => includesS d pat)

/-- First-match lookup over the treatment rule table, defaulting to
the generic fallback. -/
def firstMatchAdvice (d : String) : List String :=
  match treatmentRules.find? (fun r => matchesRule d r) with
  | some r => r.2
  | none => genericActions

/-- The emoji table keyed by severity in the narrative builder. -/
def severityEmoji : Severity → String
  | .mild => "🟡"
  | .moderate => "🟠"
  | .severe => "🔴"
  | .healthy => "🟢"

/-- `severity.charAt(0).toUpperCase() + severity.slice(1)` on the four
severity strings. -/
def severityCap : Severity → String
  | .healthy => "Healthy"
  | .mild => "Mild"
  | .moderate => "Moderate"
  | .severe => "Severe"

/-- Formatting of one alternative prediction in the narrative: the
label re-parsed, condition-less labels shown by plant only. -/
def altName (a : ClassificationResult) : String :=
  let pl := parseLabel a.label
  let name := if pl.condition = "unknown condition" then pl.plant
              else pl.plant ++ " – " ++ pl.condition
  name ++ " (" ++ pct1 a.score ++ "%)"

/-- The lines the narrative builder pushes for one diagnosis: the
healthy banner or the disease bullet block, then up to three
alternatives, then a blank line. -/
def sectionLines (n : Nat) (i : Nat) (d : PlantDiagnosisResult) : List String :=
  let label := if n > 1 then "**Image " ++ toString (i + 1) ++ ":** " else ""
  let core :=
    if d.isHealthy then
      [ label ++ "✅ **Healthy Plant Detected**",
        "Your **" ++ jsShow d.plantName ++ "** looks healthy with **"
          ++ pct1 d.confidence ++ "%** confidence. No disease signs found." ]
    else
      [ label ++ severityEmoji d.severity ++ " **" ++ jsShow d.diseaseName ++ "**",
        "- **Plant:** " ++ jsShow d.plantName,
        "- **Condition:** " ++ jsShow d.diseaseName,
        "- **Confidence:** " ++ pct1 d.confidence ++ "%",
        "- **Severity:** " ++ severityCap d.severity ]
  let alts := (d.rawResults.drop 1).take 3
  let altLines :=
    if alts.length > 0 then
      ["\n*Other possibilities:* " ++ String.intercalate ", " (alts.map altName)]
    else []
  core ++ altLines ++ [""]

/-- The lines the narrative builder pushes for one diseased diagnosis
in the consolidated advisory section. -/
def adviceBlock (d : PlantDiagnosisResult) : List String :=
  let advice := getTreatmentAdvice (d.diseaseName.getD "") (d.plantName.getD "")
  ("**For " ++ jsShow d.diseaseName ++ " on " ++ jsShow d.plantName ++ ":**")
    :: (advice.map (fun a => "• " ++ a) ++ [""])

/-- All lines of a non-empty narrative, in push order. -/
def narrativeLines (diagnoses : List PlantDiagnosisResult) (userMessage : String) : List String :=
  let header := ["## 🌿 Crop Health Analysis\n"]
  let perImage := diagnoses.enum.flatMap (fun p => sectionLines diagnoses.length p.1 p.2)
  let diseased := diagnoses.filter (fun d => !d.isHealthy)
  let treatment :=
    if diseased.length > 0 then
      "---\n## 💊 Recommended Actions\n"
        :: (diseased.flatMap adviceBlock
            ++ ["> ⚠️ *These recommendations are AI-generated. Please consult a local agronomist before applying treatments.*"])
    else []
  let query :=
    if trimS userMessage ≠ "" then
      ["\n---\n*Regarding your query: \"" ++ userMessage
        ++ "\" — the analysis above addresses the visual symptoms in your uploaded images.*"]
    else []
  header ++ perImage ++ treatment ++ query

/-- `buildDiagnosisNarrative` from the service: fixed apology for an
empty input, otherwise the pushed lines joined by newlines. -/
def buildDiagnosisNarrative (diagnoses : List PlantDiagnosisResult) (userMessage : String) : String :=
  if diagnoses.length = 0 then
    "I wasn\u0027t able to analyse any images. Please try uploading clearer crop photos."
  else
    String.intercalate "\n" (narrativeLines diagnoses userMessage)

/-- The sentinel diagnosis the diagnose controller substitutes for an
asset whose classification raised. -/
def sentinelFor (name : String) : PlantDiagnosisResult :=
  { rawResults := []
    topPrediction := "Error"
    confidence := mkRat 0 1
    isHealthy := false
    diseaseName := none
    plantName := none
    severity := .mild
    humanReadable := "Could not analyse image: " ++ name }

/-- `classifyPlantDisease(file.path).catch(err => sentinel)`: a failed
classification becomes the sentinel, a successful one passes through. -/
def resolveAsset (name : String) (out : Except String PlantDiagnosisResult) : PlantDiagnosisResult :=
  match out with
  | .ok d => d
  | .error _ => sentinelFor name

/-- The pure core of the diagnose controller: per-asset outcomes (the
original file name paired with the classification call result) are
resolved independently, then fed in submission order to the narrative
builder.  Returns the narrative and the per-asset results. -/
def diagnoseCore (assets : List (String × Except String PlantDiagnosisResult))
    (message : String) : String × List PlantDiagnosisResult :=
  let diagnoses := assets.map (fun p => resolveAsset p.1 p.2)
  (buildDiagnosisNarrative diagnoses message, diagnoses)

/-- How one Whisper tier can fail: the remote cold-start signal
(HTTP 503, thrown as MODEL_LOADING) or any other thrown error. -/
inductive WhisperFailure where
  | modelLoading
  | hfError (msg : String)
  deriving DecidableEq, Repr

/-- The decoded state of one remote Whisper response. -/
structure HfResponse where
  status : Nat
  bodyText : Option String
  bodyError : Option String
  deriving DecidableEq, Repr

/-- `callWhisper` from the transcribe controller, as a function of the
remote response: 503 throws the cold-start signal, other non-2xx
statuses and error bodies throw hard errors, otherwise the trimmed
text (or null) is returned. -/
def callWhisperOutcome (resp : HfResponse) : Except WhisperFailure (Option String) :=
  if resp.status = 503 then .error .modelLoading
  else if ¬ (200 ≤ resp.status ∧ resp.status < 300) then
    .error (.hfError ("HF_" ++ toString resp.status))
  else
    match resp.bodyError with
    | some e => if e ≠ "" then .error (.hfError ("HF_ERROR: " ++ e))
                else .ok (resp.bodyText.map trimS)
    | none => .ok (resp.bodyText.map trimS)

/-- What the transcribe endpoint sends back: a transcript or an error
response with an HTTP status and error code. -/
inductive SttOutcome where
  | success (text : String)
  | errResp (status : Nat) (code : String)
  deriving DecidableEq, Repr

/-- The empty-transcript check after the cascade: null or empty text
becomes the 422 error, anything else is sent as the transcript. -/
def finishTranscription (t : Option String) : SttOutcome :=
  match t with
  | none => .errResp 422 "TRANSCRIPTION_EMPTY"
  | some s => if s = "" then .errResp 422 "TRANSCRIPTION_EMPTY" else .success s

/-- The primary speech-to-text tier. -/
def primaryModel : String := "ihanif/whisper-medium-urdu"

/-- The fallback speech-to-text tier. -/
def fallbackModel : String := "openai/whisper-large-v3"

/-- The transcribe controller fallback cascade, as a function of each
tier call outcome: the primary is attempted once; on any primary
failure the fallback is attempted once; a cold-starting fallback
surfaces the retryable 503, any other fallback failure reaches the
outer catch as the 502 hard error.  The first component records which
tiers were attempted, in order. -/
def transcribeCascade (primary fallback : Except WhisperFailure (Option String)) :
    List String × SttOutcome :=
  match primary with
  | .ok t => ([primaryModel], finishTranscription t)
  | .error _ =>
    match fallback with
    | .ok t => ([primaryModel, fallbackModel], finishTranscription t)
    | .error .modelLoading => ([primaryModel, fallbackModel], .errResp 503 "MODEL_LOADING")
    | .error (.hfError _) => ([primaryModel, fallbackModel], .errResp 502 "HF_ERROR")

/-- Emit the replacement for a finished underscore run of length `n`
in front of `tail`: nothing for an empty run, a lone underscore for a
run of one, a single pipe for a run of two or more. -/
def flushRun (n : Nat) (tail : List Char) : List Char :=
  if n = 0 then tail else if n = 1 then '_' :: tail else '|' :: tail

/-- Scanner behind `replace(/_{2,}/g, '|')`: `pending` counts the
underscores of the current run. -/
def collapseAux : Nat → List Char → List Char
  | n, [] => flushRun n []
  | n, '_' :: rest => collapseAux (n + 1) rest
  | n, c :: rest => flushRun n (c :: collapseAux 0 rest)

/-- `replace(/_{2,}/g, '|')`: each maximal run of two or more
underscores becomes one pipe; lone underscores stay. -/
def collapseRuns (l : List Char) : List Char := collapseAux 0 l

/-- JavaScript `split('|')` on a character list. -/
def splitOnPipe : List Char → List (List Char)
  | [] => [[]]
  | '|' :: rest => [] :: splitOnPipe rest
  | c :: rest =>
    match splitOnPipe rest with
    | [] => [[c]]
    | s :: ss => (c :: s) :: ss

/-- `parseLabel` from the client-library service variant: collapse
runs of two or more underscores to pipes, turn remaining underscores
into spaces, split on pipes; with two or more parts, part 0 trimmed is
the plant and the space-joined trimmed remainder the condition;
otherwise the trimmed original label is the plant and the condition is
the shorter sentinel. -/
def parseLabelHf (label : String) : ParsedLabel :=
  match splitOnPipe (replaceU (collapseRuns label.data)) with
  | p0 :: p1 :: rest =>
    { plant := ⟨trimL p0⟩
      condition := ⟨trimL (List.intercalate [' '] (p1 :: rest))⟩ }
  | _ => { plant := trimS label, condition := "unknown" }

/-- C2: the severity classifier is a total deterministic function of
(condition, confidence); it returns Healthy exactly when the condition
text case-insensitively contains the healthy marker, irrespective of
confidence, and otherwise Mild below 0.4, Moderate in [0.4, 0.7), and
Severe at or above 0.7. -/
theorem mapSeverity_characterisation (c : String) (conf : ℚ) :
    (mapSeverity c conf = .healthy ↔ hasHealthy c = true)
  ∧ (mapSeverity c conf = .mild ↔ (hasHealthy c = false ∧ conf < 0.4))
  ∧ (mapSeverity c conf = .moderate ↔ (hasHealthy c = false ∧ 0.4 ≤ conf ∧ conf < 0.7))
  ∧ (mapSeverity c conf = .severe ↔ (hasHealthy c = false ∧ 0.7 ≤ conf)) := by
  unfold mapSeverity
  cases h : hasHealthy c
  · simp only [h, Bool.false_eq_true, if_false]
    split_ifs with h1 h2 <;> simp_all <;> intros <;> linarith
  · simp [h]

/-- C9: the two label-parsing implementations diverge: on an input
without the triple separator the direct-HTTP variant yields the
condition "unknown condition" while the client-library variant yields
"unknown" (and keeps the underscore in the plant), and an input with a
double-underscore run is split by the client-library variant but not
by the direct-HTTP variant. -/
theorem parseLabel_variants_diverge :
    parseLabel "Tomato_leaf" = ⟨"Tomato leaf", "unknown condition"⟩
  ∧ parseLabelHf "Tomato_leaf" = ⟨"Tomato_leaf", "unknown"⟩
  ∧ parseLabel "Tomato_leaf" ≠ parseLabelHf "Tomato_leaf"
  ∧ parseLabel "Pepper__bell" = ⟨"Pepper  bell", "unknown condition"⟩
  ∧ parseLabelHf "Pepper__bell" = ⟨"Pepper", "bell"⟩
  ∧ parseLabel "Pepper__bell" ≠ parseLabelHf "Pepper__bell" := by
  decide

/-- C3: with the primary tier reporting the transient cold-start
signal and the fallback tier succeeding with a non-empty transcript,
the cascade returns the fallback payload, attempts exactly the two
distinct tiers in order (the primary once, never retried), and
consults no third tier. -/
theorem cascade_advances_on_transient (t : String) (h : t ≠ "") :
    transcribeCascade (.error .modelLoading) (.ok (some t))
      = ([primaryModel, fallbackModel], .success t)
  ∧ primaryModel ≠ fallbackModel
  ∧ [primaryModel, fallbackModel].count primaryModel = 1 := by
  refine ⟨?_, by decide, by decide⟩
  unfold transcribeCascade finishTranscription
  simp [h]

/-- Witness for C3 at a concrete transcript. -/
theorem cascade_advances_on_transient_witness :
    transcribeCascade (.error .modelLoading) (.ok (some "hello"))
      = ([primaryModel, fallbackModel], .success "hello")
  ∧ primaryModel ≠ fallbackModel
  ∧ [primaryModel, fallbackModel].count primaryModel = 1 :=
  cascade_advances_on_transient "hello" (by decide)

/-- C8 counterexample: when the primary tier hard-fails and the
fallback tier is cold-starting, the surfaced terminal error is the
retryable MODEL_LOADING kind (HTTP 503), not the hard HF_ERROR kind
(HTTP 502) the claim requires for a mixed run. -/
theorem mixed_failure_surfaces_retryable :
    (transcribeCascade (.error (.hfError "HF_400: bad request"))
        (.error .modelLoading)).2 = .errResp 503 "MODEL_LOADING"
  ∧ (transcribeCascade (.error (.hfError "HF_400: bad request"))
        (.error .modelLoading)).2 ≠ .errResp 502 "HF_ERROR" := by
  refine ⟨rfl, by decide⟩

/-- C8 as amended: when every tier is exhausted the surfaced terminal
error depends only on the final tier's failure kind: a cold-starting
final tier surfaces the retryable 503 MODEL_LOADING error even if an
earlier tier hard-failed, and any other final-tier failure surfaces
the hard 502 HF_ERROR. -/
theorem cascade_terminal_error_kind (pf : WhisperFailure) (m : String) :
    transcribeCascade (.error pf) (.error .modelLoading)
      = ([primaryModel, fallbackModel], .errResp 503 "MODEL_LOADING")
  ∧ transcribeCascade (.error pf) (.error (.hfError m))
      = ([primaryModel, fallbackModel], .errResp 502 "HF_ERROR") :=
  ⟨rfl, rfl⟩

/-- C7 counterexample: for the condition "blight" the first returned
action is the remove-and-destroy instruction, not the copper-fungicide
instruction. -/
theorem blight_first_action_not_copper :
    (getTreatmentAdvice "blight" "Tomato").head?
      = some "Remove and destroy affected plant parts immediately."
  ∧ (getTreatmentAdvice "blight" "Tomato").head?
      ≠ some "Apply copper-based fungicide (e.g., Bordeaux mixture) every 7–10 days." := by
  refine ⟨rfl, by decide⟩

/-- C7 as amended: for every condition text containing "blight" the
advisor returns the blight action list — never the generic fallback —
whose second (not first) action is the copper-fungicide instruction. -/
theorem blight_advice (disease plant : String)
    (h : includesS (toLowerS disease) "blight" = true) :
    getTreatmentAdvice disease plant = blightActions
  ∧ blightActions.get? 1
      = some "Apply copper-based fungicide (e.g., Bordeaux mixture) every 7–10 days."
  ∧ getTreatmentAdvice disease plant ≠ genericActions := by
  have hadv : getTreatmentAdvice disease plant = blightActions := by
    unfold getTreatmentAdvice
    simp [h]
  refine ⟨hadv, rfl, ?_⟩
  rw [hadv]
  decide

/-- Witness for C7 as amended, at a concrete blight condition. -/
theorem blight_advice_witness :
    getTreatmentAdvice "Late blight" "Potato" = blightActions
  ∧ blightActions.get? 1
      = some "Apply copper-based fungicide (e.g., Bordeaux mixture) every 7–10 days."
  ∧ getTreatmentAdvice "Late blight" "Potato" ≠ genericActions :=
  blight_advice "Late blight" "Potato" (by decide)

/-- The treatment advisor as an if-chain coincides with first-match
lookup over the ordered rule table. -/
theorem getTreatmentAdvice_eq_firstMatch (disease plant : String) :
    getTreatmentAdvice disease plant = firstMatchAdvice (toLowerS disease) := by
  unfold getTreatmentAdvice firstMatchAdvice treatmentRules matchesRule
  simp only [List.find?, List.any_cons, List.any_nil, Bool.or_false]
  cases h1 : includesS (toLowerS disease) "blight" <;> simp only [h1, if_true, if_false] <;>
  cases h2 : includesS (toLowerS disease) "rust" <;> simp_all <;>
  cases h3 : includesS (toLowerS disease) "mildew" <;> simp_all <;>
  cases h4 : includesS (toLowerS disease) "bacterial spot" <;> simp_all <;>
  cases h5 : includesS (toLowerS disease) "bacterial" <;> simp_all <;>
  cases h6 : includesS (toLowerS disease) "leaf spot" <;> simp_all <;>
  cases h7 : includesS (toLowerS disease) "cercospora" <;> simp_all <;>
  cases h8 : includesS (toLowerS disease) "septoria" <;> simp_all <;>
  cases h9 : includesS (toLowerS disease) "mosaic" <;> simp_all <;>
  cases h10 : includesS (toLowerS disease) "virus" <;> simp_all <;>
  cases h11 : includesS (toLowerS disease) "curl" <;> simp_all <;>
  cases h12 : includesS (toLowerS disease) "scab" <;> simp_all <;>
  cases h13 : includesS (toLowerS disease) "rot" <;> simp_all <;>
  cases h14 : includesS (toLowerS disease) "anthracnose" <;> simp_all

/-- C6: the treatment advisor evaluates the ordered substring rule
table top to bottom on the lower-cased condition text and returns the
first matching rule's action list; a condition text matching no rule
gets exactly the fixed generic fallback list. -/
theorem getTreatmentAdvice_c6 (disease plant : String) :
    getTreatmentAdvice disease plant = firstMatchAdvice (toLowerS disease)
  ∧ ((treatmentRules.all fun r => !matchesRule (toLowerS disease) r) = true →
      getTreatmentAdvice disease plant = genericActions) := by
  refine ⟨getTreatmentAdvice_eq_firstMatch disease plant, fun hall => ?_⟩
  rw [getTreatmentAdvice_eq_firstMatch disease plant]
  unfold firstMatchAdvice
  rw [List.find?_eq_none.mpr]
  intro r hr
  have := (List.all_eq_true.mp hall) r hr
  simpa using this

/-- Witness for C6 at a condition text matching no rule. -/
theorem getTreatmentAdvice_c6_witness :
    getTreatmentAdvice "strange wilt" "Tomato" = firstMatchAdvice (toLowerS "strange wilt")
  ∧ getTreatmentAdvice "strange wilt" "Tomato" = genericActions :=
  ⟨(getTreatmentAdvice_c6 "strange wilt" "Tomato").1,
   (getTreatmentAdvice_c6 "strange wilt" "Tomato").2 (by decide)⟩

/-- Underscore replacement leaves no underscore behind. -/
theorem not_mem_underscore_replaceU (l : List Char) : '_' ∉ replaceU l := by
  intro h
  unfold replaceU at h
  rw [List.mem_map] at h
  obtain ⟨c, _, he⟩ := h
  by_cases hc : c = '_' <;> simp [hc] at he

/-- Trimming only removes characters. -/
theorem mem_of_mem_trimL {x : Char} {l : List Char} (h : x ∈ trimL l) : x ∈ l := by
  unfold trimL at h
  rw [List.mem_reverse] at h
  have h2 := (List.dropWhile_sublist jsSpace).subset h
  rw [List.mem_reverse] at h2
  exact (List.dropWhile_sublist jsSpace).subset h2

/-- A list containing the triple-underscore separator contains an
underscore. -/
theorem underscore_mem_of_contains {l : List Char}
    (h : containsSub sepU l = true) : '_' ∈ l := by
  induction l with
  | nil => simp [containsSub, startsWithL, sepU] at h
  | cons c rest ih =>
    rw [containsSub, Bool.or_eq_true] at h
    rcases h with h | h
    · rw [sepU] at h
      rw [startsWithL, Bool.and_eq_true, beq_iff_eq] at h
      exact List.mem_cons.mpr (Or.inl h.1)
    · exact List.mem_cons_of_mem _ (ih h)

/-- Splitting a string free of the separator yields one segment: the
accumulator followed by the rest. -/
theorem split3U_no_sep (acc s : List Char)
    (h : containsSub sepU s = false) : split3U acc s = [acc.reverse ++ s] := by
  induction acc, s using split3U.induct with
  | case1 acc rest ih =>
    exfalso
    rw [containsSub, Bool.or_eq_false_iff] at h
    simp [startsWithL, sepU] at h
  | case2 acc c rest hne ih =>
    rw [containsSub, Bool.or_eq_false_iff] at h
    rw [split3U]
    · rw [ih h.2]
      simp
    · exact hne
  | case3 acc => simp [split3U]

/-- Splitting always yields at least one segment. -/
theorem split3U_ne_nil (acc s : List Char) : split3U acc s ≠ [] := by
  induction acc, s using split3U.induct with
  | case1 acc rest ih => rw [split3U]; simp
  | case2 acc c rest hne ih =>
    rw [split3U]
    · exact ih
    · exact hne
  | case3 acc => simp [split3U]

/-- Splitting a string containing the separator yields at least two
segments. -/
theorem split3U_len_ge_two (acc s : List Char)
    (h : containsSub sepU s = true) : 2 ≤ (split3U acc s).length := by
  induction acc, s using split3U.induct with
  | case1 acc rest ih =>
    rw [split3U]
    have := split3U_ne_nil ([] : List Char) rest
    cases hsp : split3U ([] : List Char) rest with
    | nil => exact absurd hsp this
    | cons x xs => simp [hsp]
  | case2 acc c rest hne ih =>
    rw [containsSub, Bool.or_eq_true] at h
    rcases h with h | h
    · exfalso
      rw [sepU] at h
      cases rest with
      | nil => simp [startsWithL] at h
      | cons c2 rest2 =>
        cases rest2 with
        | nil => simp [startsWithL] at h
        | cons c3 rest3 =>
          simp only [startsWithL, Bool.and_eq_true, beq_iff_eq] at h
          exact hne rest3 h.1.symm (by rw [← h.2.1, ← h.2.2.1])
    · rw [split3U]
      · exact ih h
      · exact hne
  | case3 acc => simp [containsSub, startsWithL, sepU] at h

/-- C1: the label parser splits on the triple-underscore separator
first, so the output condition never contains the raw separator; when
the separator is present the subject and condition are the normalised
segment 0 and joined remainder; when it is absent the subject is the
trimmed underscore-normalised whole input and the condition is exactly
the "unknown condition" sentinel; the parser is total, and the empty
string maps to an empty subject with the sentinel condition. -/
theorem parseLabel_c1 (raw : String) :
    containsSub sepU (parseLabel raw).condition.data = false
  ∧ (containsSub sepU raw.data = false →
      parseLabel raw = ⟨⟨trimL (replaceU raw.data)⟩, "unknown condition"⟩)
  ∧ (containsSub sepU raw.data = true →
      ∃ p0 p1 rest, split3U [] raw.data = p0 :: p1 :: rest
        ∧ parseLabel raw
            = ⟨⟨trimL (replaceU p0)⟩,
               ⟨trimL (replaceU (List.intercalate [' '] (p1 :: rest)))⟩⟩)
  ∧ parseLabel "" = ⟨"", "unknown condition"⟩ := by
  refine ⟨?_, ?_, ?_, by decide⟩
  · unfold parseLabel
    cases hsp : split3U [] raw.data with
    | nil =>
      show containsSub sepU ("unknown condition" : String).data = false
      decide
    | cons p0 tail =>
      cases tail with
      | nil =>
        show containsSub sepU ("unknown condition" : String).data = false
        decide
      | cons p1 rest =>
        simp only
        cases hc : containsSub sepU (trimL (replaceU (List.intercalate [' '] (p1 :: rest)))) with
        | false => rfl
        | true =>
          exfalso
          have hm := underscore_mem_of_contains hc
          exact not_mem_underscore_replaceU _ (mem_of_mem_trimL hm)
  · intro h
    unfold parseLabel
    rw [split3U_no_sep [] raw.data h]
  · intro h
    have hlen := split3U_len_ge_two [] raw.data h
    cases hsp : split3U [] raw.data with
    | nil => rw [hsp] at hlen; simp at hlen
    | cons p0 tail =>
      cases tail with
      | nil => rw [hsp] at hlen; simp at hlen
      | cons p1 rest =>
        refine ⟨p0, p1, rest, rfl, ?_⟩
        unfold parseLabel
        rw [hsp]

/-- Witness for C1 at an input without the separator and one with
it. -/
theorem parseLabel_c1_witness :
    parseLabel "Tomato_early" = ⟨⟨trimL (replaceU "Tomato_early".data)⟩, "unknown condition"⟩
  ∧ (∃ p0 p1 rest, split3U [] "Bell_Pepper___Bacterial_spot".data = p0 :: p1 :: rest
      ∧ parseLabel "Bell_Pepper___Bacterial_spot"
          = ⟨⟨trimL (replaceU p0)⟩,
             ⟨trimL (replaceU (List.intercalate [' '] (p1 :: rest)))⟩⟩) :=
  ⟨(parseLabel_c1 "Tomato_early").2.1 (by decide),
   (parseLabel_c1 "Bell_Pepper___Bacterial_spot").2.2.1 (by decide)⟩

/-- Score-descending ordering between predictions. -/
def geScore (a b : ClassificationResult) : Prop := b.score ≤ a.score

/-- Membership through insertion. -/
theorem mem_insertDesc {x z : ClassificationResult} {l : List ClassificationResult} :
    z ∈ insertDesc x l ↔ z = x ∨ z ∈ l := by
  induction l with
  | nil => simp [insertDesc]
  | cons y ys ih =>
    unfold insertDesc
    split_ifs with hc
    · simp
    · simp only [List.mem_cons, ih]
      tauto

/-- Insertion preserves score-descending sortedness. -/
theorem insertDesc_pairwise {x : ClassificationResult} {l : List ClassificationResult}
    (h : l.Pairwise geScore) : (insertDesc x l).Pairwise geScore := by
  induction l with
  | nil => simp [insertDesc]
  | cons y ys ih =>
    rw [List.pairwise_cons] at h
    obtain ⟨hy, hys⟩ := h
    unfold insertDesc
    split_ifs with hc
    · rw [List.pairwise_cons]
      refine ⟨?_, List.pairwise_cons.mpr ⟨hy, hys⟩⟩
      intro z hz
      rcases List.mem_cons.mp hz with rfl | hz2
      · exact le_of_lt hc
      · exact le_trans (hy z hz2) (le_of_lt hc)
    · rw [List.pairwise_cons]
      refine ⟨?_, ih hys⟩
      intro z hz
      rcases mem_insertDesc.mp hz with rfl | hz2
      · exact not_lt.mp hc
      · exact hy z hz2

/-- The stable descending sort is sorted by descending score. -/
theorem jsSortDescScore_sorted (results : List ClassificationResult) :
    (jsSortDescScore results).Pairwise geScore := by
  unfold jsSortDescScore
  suffices hgen : ∀ acc : List ClassificationResult, acc.Pairwise geScore →
      (results.foldl (fun acc r => insertDesc r acc) acc).Pairwise geScore from
    hgen [] (by simp)
  induction results with
  | nil => intro acc hacc; simpa using hacc
  | cons r rs ih =>
    intro acc hacc
    exact ih (insertDesc r acc) (insertDesc_pairwise hacc)

/-- C5: every successfully produced diagnosis has score-descending
rawResults; its topPrediction and confidence are rawResults[0]'s label
and score; isHealthy holds exactly when the parsed condition of the
top label contains the healthy marker case-insensitively; and a
healthy diagnosis always has severity Healthy regardless of
confidence. -/
theorem classifyCore_invariants (results : List ClassificationResult)
    (r : PlantDiagnosisResult) (h : classifyCore results = .ok r) :
    r.rawResults.Pairwise geScore
  ∧ r.rawResults ≠ []
  ∧ (∀ top rest, r.rawResults = top :: rest →
      r.topPrediction = top.label ∧ r.confidence = top.score)
  ∧ r.isHealthy = hasHealthy (parseLabel r.topPrediction).condition
  ∧ (r.isHealthy = true → r.severity = .healthy) := by
  unfold classifyCore at h
  split at h
  · exact Except.noConfusion h
  · split at h
    next hsp => exact Except.noConfusion h
    next top tail hsp =>
      rw [Except.ok.injEq] at h
      subst h
      refine ⟨?_, ?_, ?_, rfl, ?_⟩
      · show ((jsSortDescScore results).map
          (fun r => ({ label := r.label, score := r.score } : ClassificationResult))).Pairwise geScore
        rw [List.pairwise_map]
        exact jsSortDescScore_sorted results
      · show (jsSortDescScore results).map
          (fun r => ({ label := r.label, score := r.score } : ClassificationResult)) ≠ []
        rw [hsp]
        simp
      · intro top2 rest2 heq2
        show top.label = top2.label ∧ top.score = top2.score
        have heq3 : (jsSortDescScore results).map
            (fun r => ({ label := r.label, score := r.score } : ClassificationResult))
            = top2 :: rest2 := heq2
        rw [hsp, List.map_cons] at heq3
        have h1 : ({ label := top.label, score := top.score } : ClassificationResult)
            = top2 := (List.cons.injEq _ _ _ _ ▸ heq3).1
        rw [← h1]
        exact ⟨rfl, rfl⟩
      · intro hh
        have hh2 : hasHealthy (parseLabel top.label).condition = true := hh
        show mapSeverity (parseLabel top.label).condition top.score = .healthy
        unfold mapSeverity
        rw [hh2]
        rfl

/-- A concrete classifier reply used to witness C5. -/
def sampleResults : List ClassificationResult :=
  [⟨"Tomato___Early_blight", mkRat 1 20⟩, ⟨"Tomato___healthy", mkRat 19 20⟩]

/-- The diagnosis classifyCore produces on `sampleResults`. -/
def sampleDiag : PlantDiagnosisResult :=
  { rawResults := [⟨"Tomato___healthy", mkRat 19 20⟩, ⟨"Tomato___Early_blight", mkRat 1 20⟩]
    topPrediction := "Tomato___healthy"
    confidence := mkRat 19 20
    isHealthy := true
    diseaseName := none
    plantName := some "Tomato"
    severity := .healthy
    humanReadable := "The Tomato plant appears healthy (95.0% confidence)." }

/-- Witness for C5 at a concrete classifier reply. -/
theorem classifyCore_invariants_witness :
    sampleDiag.rawResults.Pairwise geScore
  ∧ sampleDiag.rawResults ≠ []
  ∧ sampleDiag.isHealthy = hasHealthy (parseLabel sampleDiag.topPrediction).condition
  ∧ sampleDiag.severity = Severity.healthy :=
  have h := classifyCore_invariants sampleResults sampleDiag rfl
  ⟨h.1, h.2.1, h.2.2.2.1, h.2.2.2.2 (by decide)⟩

/-- A concrete diseased diagnosis for the first asset of the
partial-failure scenario. -/
def diagA : PlantDiagnosisResult :=
  { rawResults := [⟨"Tomato___Early_blight", mkRat 41 50⟩]
    topPrediction := "Tomato___Early_blight"
    confidence := mkRat 41 50
    isHealthy := false
    diseaseName := some "Early blight"
    plantName := some "Tomato"
    severity := .severe
    humanReadable := "Detected Early blight on Tomato with 82.0% confidence." }

/-- A concrete healthy diagnosis for the third asset of the
partial-failure scenario. -/
def diagC : PlantDiagnosisResult :=
  { rawResults := [⟨"Tomato___healthy", mkRat 19 20⟩]
    topPrediction := "Tomato___healthy"
    confidence := mkRat 19 20
    isHealthy := true
    diseaseName := none
    plantName := some "Tomato"
    severity := .healthy
    humanReadable := "The Tomato plant appears healthy (95.0% confidence)." }

set_option maxRecDepth 100000 in
set_option maxHeartbeats 1600000 in
/-- C4 counterexample: in the three-asset run where asset 2 fails
hard, the narrative has exactly three per-image sections but contains
the could-not-analyse fragment nowhere (in either capitalisation);
the fragment lives only in the sentinel's humanReadable field of the
per-asset summaries. -/
theorem diagnose_narrative_lacks_fragment :
    countSub "**Image ".data
      (diagnoseCore [("leaf1.jpg", .ok diagA),
        ("photo2.jpg", .error "HF classification error 500"),
        ("leaf3.jpg", .ok diagC)] "").1.data = 3
  ∧ containsSub "ould not analyse".data
      (diagnoseCore [("leaf1.jpg", .ok diagA),
        ("photo2.jpg", .error "HF classification error 500"),
        ("leaf3.jpg", .ok diagC)] "").1.data = false
  ∧ ((diagnoseCore [("leaf1.jpg", .ok diagA),
        ("photo2.jpg", .error "HF classification error 500"),
        ("leaf3.jpg", .ok diagC)] "").2.map PlantDiagnosisResult.humanReadable).get? 1
      = some "Could not analyse image: photo2.jpg" := by
  refine ⟨by decide, by decide, by decide⟩

set_option maxRecDepth 100000 in
set_option maxHeartbeats 1600000 in
/-- C4 as amended: for a three-asset diagnose request whose second
classification raises, the request-level computation is total and
yields the two successes plus a sentinel in submission order; the
sentinel has isHealthy false, severity Mild, empty rawResults and
humanReadable fragment "Could not analyse image: <name>"; the
narrative has exactly three per-image sections, but the
could-not-analyse fragment appears only in the per-asset summary, not
in the narrative, whose second section renders the sentinel's null
disease name literally. -/
theorem diagnose_partial_failure (err name : String) :
    (diagnoseCore [("leaf1.jpg", .ok diagA), (name, .error err),
        ("leaf3.jpg", .ok diagC)] "").2 = [diagA, sentinelFor name, diagC]
  ∧ (sentinelFor name).isHealthy = false
  ∧ (sentinelFor name).severity = .mild
  ∧ (sentinelFor name).rawResults = []
  ∧ (sentinelFor name).humanReadable = "Could not analyse image: " ++ name
  ∧ countSub "**Image ".data
      (diagnoseCore [("leaf1.jpg", .ok diagA),
        ("photo2.jpg", .error "HF classification error 500"),
        ("leaf3.jpg", .ok diagC)] "").1.data = 3
  ∧ containsSub "**Image 2:** 🟡 **null**".data
      (diagnoseCore [("leaf1.jpg", .ok diagA),
        ("photo2.jpg", .error "HF classification error 500"),
        ("leaf3.jpg", .ok diagC)] "").1.data = true
  ∧ containsSub "ould not analyse".data
      (diagnoseCore [("leaf1.jpg", .ok diagA),
        ("photo2.jpg", .error "HF classification error 500"),
        ("leaf3.jpg", .ok diagC)] "").1.data = false := by
  refine ⟨rfl, rfl, rfl, rfl, rfl, by decide, by decide, by decide⟩

/-- C10: a sentinel diagnosis (not healthy, null disease and plant
names, empty rawResults) anywhere in the narrative builder's input is
counted as diseased, so the consolidated advisory section is emitted;
its heading interpolates the null fields literally as
"For null on null:", and its advice is the generic fallback because
the treatment advisor is invoked with the empty string. -/
theorem narrative_sentinel_advice (ds : List PlantDiagnosisResult) (msg : String)
    (d : PlantDiagnosisResult) (hd : d ∈ ds) (hh : d.isHealthy = false)
    (hdn : d.diseaseName = none) (hpn : d.plantName = none) :
    d ∈ ds.filter (fun x => !x.isHealthy)
  ∧ "---\n## 💊 Recommended Actions\n" ∈ narrativeLines ds msg
  ∧ "**For null on null:**" ∈ narrativeLines ds msg
  ∧ adviceBlock d
      = "**For null on null:**" :: (genericActions.map (fun a => "• " ++ a) ++ [""])
  ∧ getTreatmentAdvice (d.diseaseName.getD "") (d.plantName.getD "") = genericActions := by
  have hdis : d ∈ ds.filter (fun x => !x.isHealthy) :=
    List.mem_filter.mpr ⟨hd, by rw [hh]; rfl⟩
  have hlen : 0 < (ds.filter (fun x => !x.isHealthy)).length :=
    List.length_pos.mpr (List.ne_nil_of_mem hdis)
  have hadv : getTreatmentAdvice (d.diseaseName.getD "") (d.plantName.getD "")
      = genericActions := by
    rw [hdn, hpn]
    decide
  have hblock : adviceBlock d
      = "**For null on null:**" :: (genericActions.map (fun a => "• " ++ a) ++ [""]) := by
    have hb : adviceBlock d
        = ("**For " ++ jsShow d.diseaseName ++ " on " ++ jsShow d.plantName ++ ":**")
          :: ((getTreatmentAdvice (d.diseaseName.getD "") (d.plantName.getD "")).map
                (fun a => "• " ++ a) ++ [""]) := rfl
    rw [hb, hadv, hdn, hpn]
    rfl
  refine ⟨hdis, ?_, ?_, hblock, hadv⟩
  · simp only [narrativeLines]
    rw [if_pos hlen]
    exact List.mem_append.mpr (Or.inl (List.mem_append.mpr (Or.inr
      (List.mem_cons_self _ _))))
  · simp only [narrativeLines]
    rw [if_pos hlen]
    refine List.mem_append.mpr (Or.inl (List.mem_append.mpr (Or.inr
      (List.mem_cons_of_mem _ ?_))))
    refine List.mem_append.mpr (Or.inl ?_)
    exact List.mem_flatMap.mpr ⟨d, hdis, by rw [hblock]; exact List.mem_cons_self _ _⟩

/-- Witness for C10 at a one-asset input holding only the sentinel. -/
theorem narrative_sentinel_advice_witness :
    "---\n## 💊 Recommended Actions\n" ∈ narrativeLines [sentinelFor "x.jpg"] ""
  ∧ "**For null on null:**" ∈ narrativeLines [sentinelFor "x.jpg"] ""
  ∧ getTreatmentAdvice "" "" = genericActions :=
  have h := narrative_sentinel_advice [sentinelFor "x.jpg"] "" (sentinelFor "x.jpg")
    (List.mem_singleton.mpr rfl) rfl rfl rfl
  ⟨h.2.1, h.2.2.1, h.2.2.2.2⟩

end AggriAssist
